import Mathlib

set_option maxRecDepth 100000

/-!
Verification of the Zudora cutoff-matching and intent-classification core.

The source is a React/TypeScript chat component.  Its two pure functions,
`findCollegesByMarks` and `generateAIResponse`, are embedded here over
`List Char` strings, with JS numbers modelled as rationals.  The college
catalog (a JSON file loaded at startup) is a parameter of the embedding, so
every theorem quantifies over catalogs.
-/

/-- Text is modelled as a list of characters, mirroring JS strings
(ASCII is all that the classifier logic inspects). -/
abbrev Str := List Char

/-- Model of `String.prototype.includes`: `includes pat hay` is true when
`pat` occurs contiguously inside `hay`. -/
def includes (pat : Str) : Str → Bool
  | [] => List.isPrefixOf pat []
  | c :: cs => List.isPrefixOf pat (c :: cs) || includes pat cs

/-- Model of `String.prototype.toLowerCase` on ASCII text. -/
def toLowerStr (s : Str) : Str := s.map Char.toLower

/-- Model of `String.prototype.toUpperCase` on ASCII text. -/
def toUpperStr (s : Str) : Str := s.map Char.toUpper

/-- JS regex word character class: letters, digits and underscore. -/
def isWordChar (c : Char) : Bool := c.isAlpha || c.isDigit || c == '_'

/-- Word-character test lifted to an optional character (none stands for the
outside of the string). -/
def isWordOpt : Option Char → Bool
  | none => false
  | some c => isWordChar c

/-- JS regex word boundary between two adjacent positions. -/
def wordBoundary (prev next : Option Char) : Bool := isWordOpt prev != isWordOpt next

/-- Longest prefix of the string consisting of decimal digits. -/
def leadingDigits : Str → Str
  | [] => []
  | c :: cs => if c.isDigit then c :: leadingDigits cs else []

/-- Natural-number value of a string of decimal digits. -/
def digitsVal (s : Str) : Nat := s.foldl (fun n c => 10 * n + (c.toNat - 48)) 0

/-- Attempt of the optional fraction group of the marks regex followed by the
trailing word boundary.  Greedy one-or-more digits after a dot; the boundary
after a digit holds exactly when the next character is absent or non-word. -/
def decThenBoundary : Str → Option Str
  | '.' :: t =>
      if (leadingDigits t).length > 0 && !isWordOpt ((t.drop (leadingDigits t).length).head?) then
        some ('.' :: leadingDigits t)
      else none
  | _ => none

/-- One backtracking attempt of the marks regex after consuming the integer
digits `digs`: first try the fraction group, then try skipping it. -/
def marksFrom (digs rest : Str) : Option Str :=
  match decThenBoundary rest with
  | some dec => some (digs ++ dec)
  | none => if !isWordOpt rest.head? then some digs else none

/-- Greedy backtracking over the counted digit group of the marks regex:
digit counts are tried from `k` down to 1. -/
def marksTry : Nat → Str → Option Str
  | 0, _ => none
  | k + 1, s =>
      match marksFrom (s.take (k + 1)) (s.drop (k + 1)) with
      | some r => some r
      | none => marksTry k s

/-- Match of the source regex for marks anchored at one position of the text,
given the previous character. -/
def marksAt (prev : Option Char) (s : Str) : Option Str :=
  if wordBoundary prev s.head? then marksTry (min (leadingDigits s).length 3) s else none

/-- Left-to-right scan of the marks regex over the text. -/
def marksScan : Option Char → Str → Option Str
  | _, [] => none
  | prev, c :: cs =>
      match marksAt prev (c :: cs) with
      | some r => some r
      | none => marksScan (some c) cs

/-- First match of the marks regex in the text, as in the source line
using the marks pattern on the lower-cased input. -/
def firstMarksMatch (s : Str) : Option Str := marksScan none s

/-- The seven category alternatives of the category regex, in source order. -/
def categoryAlts : List Str :=
  [("oc").data, ("bc").data, ("bcm").data, ("mbc").data, ("sc").data, ("sca").data, ("st").data]

/-- Ordered alternation of the category regex at one position: each
alternative is tried in turn, and accepted only when a word boundary follows
(every alternative ends in a word character). -/
def altTry (s : Str) : List Str → Option Str
  | [] => none
  | a :: as =>
      if List.isPrefixOf a s && !isWordOpt ((s.drop a.length).head?) then some a else altTry s as

/-- Match of the category regex anchored at one position of the text. -/
def categoryAt (prev : Option Char) (s : Str) : Option Str :=
  if wordBoundary prev s.head? then altTry s categoryAlts else none

/-- Left-to-right scan of the category regex over the text. -/
def categoryScan : Option Char → Str → Option Str
  | _, [] => none
  | prev, c :: cs =>
      match categoryAt prev (c :: cs) with
      | some r => some r
      | none => categoryScan (some c) cs

/-- First match of the category regex in the text. -/
def firstCategoryMatch (s : Str) : Option Str := categoryScan none s

/-- Model of `parseFloat` restricted to the strings produced by the marks
regex (digits with an optional fraction), read as an exact rational. -/
def parseScore (s : Str) : ℚ :=
  match s.drop (leadingDigits s).length with
  | '.' :: rest =>
      (digitsVal (leadingDigits s) : ℚ) +
        (digitsVal (leadingDigits rest) : ℚ) / ((10 : ℚ) ^ (leadingDigits rest).length)
  | _ => (digitsVal (leadingDigits s) : ℚ)

/-- Branch record of the catalog: a name and the 2024 cutoff mapping from
category code to numeric cutoff; an absent key means no historic allotment. -/
structure Branch where
  branch_name : Str
  cutoffs_2024 : List (Str × ℚ)
deriving DecidableEq

/-- College record of the catalog. -/
structure College where
  college_name : Str
  address : Str
  branches : List Branch
deriving DecidableEq

/-- Suggestion emitted by the matcher, one per qualifying college and branch
pair. -/
structure CollegeSuggestion where
  college_name : Str
  branch_name : Str
  cutoff : ℚ
  address : Str
deriving DecidableEq

/-- Reply of the classifier: a content string and an optional suggestion
list. -/
structure Reply where
  content : Str
  suggestions : Option (List CollegeSuggestion)
deriving DecidableEq

/-- Cutoff lookup for a category in a branch, modelling the indexed access
into the cutoff mapping. -/
def branchCutoff (branch : Branch) (category : Str) : Option ℚ :=
  branch.cutoffs_2024.lookup category

/-- Body of the inner loop of `findCollegesByMarks`: look up the cutoff and,
when it is present, truthy (nonzero) and at most the marks, build the
suggestion.  The nonzero conjunct models the JS truthiness test on the
looked-up cutoff. -/
def suggestionOf (college : College) (marks : ℚ) (category : Str) (branch : Branch) :
    Option CollegeSuggestion :=
  match branchCutoff branch category with
  | some cutoff =>
      if cutoff ≠ 0 ∧ cutoff ≤ marks then
        some ⟨college.college_name, branch.branch_name, cutoff, college.address⟩
      else none
  | none => none

/-- The two nested forEach loops of `findCollegesByMarks`, accumulating the
qualifying suggestions in catalog order. -/
def collectSuggestions (catalog : List College) (marks : ℚ) (category : Str) :
    List CollegeSuggestion :=
  catalog.flatMap fun college => college.branches.filterMap (suggestionOf college marks category)

/-- Order induced by the sort comparator of the source, which subtracts
cutoffs to sort descending by cutoff. -/
def suggLE (a b : CollegeSuggestion) : Prop := b.cutoff ≤ a.cutoff

instance : DecidableRel suggLE := fun a b => inferInstanceAs (Decidable (b.cutoff ≤ a.cutoff))

instance : IsTotal CollegeSuggestion suggLE := ⟨fun a b => le_total b.cutoff a.cutoff⟩

instance : IsTrans CollegeSuggestion suggLE := ⟨fun _ _ _ h1 h2 => le_trans h2 h1⟩

/-- The matcher before truncation: collected suggestions sorted descending by
cutoff.  Insertion sort is a stable sort and therefore agrees with the JS
stable `Array.prototype.sort` under the comparator of the source. -/
def findCollegesByMarksAll (catalog : List College) (marks : ℚ) (category : Str) :
    List CollegeSuggestion :=
  List.insertionSort suggLE (collectSuggestions catalog marks category)

/-- Model of `findCollegesByMarks`: collect, sort descending by cutoff, and
keep the first ten, as in the slice call of the source. -/
def findCollegesByMarks (catalog : List College) (marks : ℚ) (category : Str) :
    List CollegeSuggestion :=
  (findCollegesByMarksAll catalog marks category).take 10

/-- Greeting keyword of classifier rule 1. -/
def tokHi : Str := ("hi").data

/-- Greeting keyword of classifier rule 1. -/
def tokHello : Str := ("hello").data

/-- Greeting keyword of classifier rule 1. -/
def tokHey : Str := ("hey").data

/-- Small-talk phrase of classifier rule 2. -/
def tokHowAreYou : Str := ("how are you").data

/-- Small-talk phrase of classifier rule 2. -/
def tokHowDoYouDo : Str := ("how do you do").data

/-- Keyword of classifier rule 4. -/
def tokCollege : Str := ("college").data

/-- Keyword of classifier rule 4. -/
def tokEngineering : Str := ("engineering").data

/-- Keyword of classifier rule 4. -/
def tokCutoff : Str := ("cutoff").data

/-- Rendering of a number into reply text.  This stands for the JS
number-to-string conversion inside template literals; no claim depends on
the exact digits produced. -/
def renderQ (q : ℚ) : Str := (toString q).data

/-- Rendering of a natural number into reply text. -/
def renderNat (n : Nat) : Str := (toString n).data

/-- Content of the fixed greeting reply of rule 1. -/
def greetingContent : Str :=
  ("Hello! Great to meet you! I\x27m Zudora, your AI college counselor. I specialize in helping students find the perfect engineering colleges based on their TNEA cutoff marks and category. How can I assist you today?").data

/-- Content of the fixed small-talk reply of rule 2. -/
def howAreYouContent : Str :=
  ("I\x27m doing wonderful, thank you for asking! I\x27m here and ready to help you navigate the college selection process. Whether you need college suggestions, cutoff information, or guidance about engineering branches, I\x27m here to help!").data

/-- Fixed pieces of the reply content for a successful match, around the
interpolated marks, category and count. -/
def foundContentA : Str := ("Great! Based on your cutoff marks of ").data

/-- Second fixed piece of the successful-match content. -/
def foundContentB : Str := (" and ").data

/-- Third fixed piece of the successful-match content. -/
def foundContentC : Str := (" category, I found ").data

/-- Last fixed piece of the successful-match content. -/
def foundContentD : Str :=
  (" excellent college options for you. Here are the top colleges where you have a good chance of admission:").data

/-- Content of the reply for a successful match, with marks, category and
suggestion count interpolated as in the source template literal. -/
def foundContent (marks : ℚ) (category : Str) (count : Nat) : Str :=
  foundContentA ++ renderQ marks ++ foundContentB ++ category ++ foundContentC ++
    renderNat count ++ foundContentD

/-- First fixed piece of the no-match fallback content. -/
def noMatchContentA : Str := ("I understand you have ").data

/-- Second fixed piece of the no-match fallback content. -/
def noMatchContentB : Str := (" marks in ").data

/-- Last fixed piece of the no-match fallback content. -/
def noMatchContentC : Str :=
  (" category. Unfortunately, I couldn\x27t find colleges that match these specific criteria in my current database. You might want to consider:\n          \n          1. Checking if there are any updates to cutoffs\n          2. Looking at colleges with slightly lower requirements\n          3. Exploring different engineering branches\n          \n          Would you like me to help you with a different marks range or category?").data

/-- Content of the explanatory fallback reply when the matcher finds
nothing, with marks and category interpolated. -/
def noMatchContent (marks : ℚ) (category : Str) : Str :=
  noMatchContentA ++ renderQ marks ++ noMatchContentB ++ category ++ noMatchContentC

/-- Content of the rule 4 reply prompting for marks and category. -/
def collegeContent : Str :=
  ("I\x27d be happy to help you with college suggestions! To provide you with the most relevant recommendations, I\x27ll need to know:\n\n1. Your cutoff marks (TNEA score)\n2. Your category (OC, BC, BCM, MBC, SC, SCA, or ST)\n\nFor example, you can say: \x27I scored 185 marks in BC category\x27 or \x27My cutoff is 170 and I\x27m in MBC category.\x27").data

/-- Content of the rule 5 generic help reply. -/
def defaultContent : Str :=
  ("I\x27m here to help you find the best engineering colleges based on your TNEA cutoff marks and category. You can ask me things like:\n\n• \x27I scored 185 marks in BC category\x27\n• \x27What colleges can I get with 175 cutoff in OC?\x27\n• \x27Show me CSE colleges for MBC category\x27\n\nFeel free to share your marks and category, and I\x27ll provide personalized college suggestions!").data

/-- Fixed greeting reply of rule 1: no suggestions attached. -/
def greetingReply : Reply := ⟨greetingContent, none⟩

/-- Fixed small-talk reply of rule 2. -/
def howAreYouReply : Reply := ⟨howAreYouContent, none⟩

/-- Rule 4 reply. -/
def collegeReply : Reply := ⟨collegeContent, none⟩

/-- Rule 5 reply. -/
def defaultReply : Reply := ⟨defaultContent, none⟩

/-- Rule 3 body: invoke the matcher and build either the successful reply
carrying the suggestions or the explanatory fallback.  The local suggestions
variable of the source is inlined. -/
def marksReply (catalog : List College) (marks : ℚ) (category : Str) : Reply :=
  if 0 < (findCollegesByMarks catalog marks category).length then
    ⟨foundContent marks category (findCollegesByMarks catalog marks category).length,
      some (findCollegesByMarks catalog marks category)⟩
  else
    ⟨noMatchContent marks category, none⟩

/-- Model of `generateAIResponse`: the ordered keyword and regex rule chain
of the source, applied to the lower-cased input. -/
def generateAIResponse (catalog : List College) (userInput : Str) : Reply :=
  if includes tokHi (toLowerStr userInput) || includes tokHello (toLowerStr userInput) ||
      includes tokHey (toLowerStr userInput) then
    greetingReply
  else if includes tokHowAreYou (toLowerStr userInput) ||
      includes tokHowDoYouDo (toLowerStr userInput) then
    howAreYouReply
  else
    match firstMarksMatch (toLowerStr userInput), firstCategoryMatch (toLowerStr userInput) with
    | some marksStr, some categoryStr =>
        marksReply catalog (parseScore marksStr) (toUpperStr categoryStr)
    | _, _ =>
        if includes tokCollege (toLowerStr userInput) ||
            includes tokEngineering (toLowerStr userInput) ||
            includes tokCutoff (toLowerStr userInput) then
          collegeReply
        else
          defaultReply

/-- Modelled from the spec: an occurrence of a keyword as a token, that is a
substring occurrence delimited by word boundaries on both sides.  The spec
describes rule 1 as firing on greeting tokens; the source itself only tests
substring containment, so this definition follows the words of the spec and
is compared against the source behaviour. -/
def tokenHere (tok : Str) (prev : Option Char) (s : Str) : Bool :=
  wordBoundary prev s.head? && List.isPrefixOf tok s && !isWordOpt ((s.drop tok.length).head?)

/-- Scan for a token occurrence at any position, tracking the previous
character for the leading word boundary. -/
def tokenScan (tok : Str) : Option Char → Str → Bool
  | prev, [] => tokenHere tok prev []
  | prev, c :: cs => tokenHere tok prev (c :: cs) || tokenScan tok (some c) cs

/-- Modelled from the spec: the text contains the keyword as a whole token. -/
def containsTokenSpec (hay tok : Str) : Bool := tokenScan tok none hay

/-- Concrete college name used in witness catalogs. -/
def collegeA : Str := ("Alpha Institute of Technology").data

/-- Concrete address used in witness catalogs. -/
def addressA : Str := ("Chennai").data

/-- Concrete branch name used in witness catalogs. -/
def branchCSE : Str := ("Computer Science and Engineering").data

/-- Second concrete branch name used in witness catalogs. -/
def branchECE : Str := ("Electronics and Communication Engineering").data

/-- Category code OC as a string. -/
def catOC : Str := ("OC").data

/-- Witness catalog: one branch whose OC cutoff is present and equal to 0. -/
def catalogZero : List College := [⟨collegeA, addressA, [⟨branchCSE, [(catOC, (0 : ℚ))]⟩]⟩]

/-- Witness catalog: one branch with OC cutoff 150. -/
def catalogOne : List College := [⟨collegeA, addressA, [⟨branchCSE, [(catOC, (150 : ℚ))]⟩]⟩]

/-- Witness catalog: one branch with OC cutoff 60. -/
def catalogSixty : List College := [⟨collegeA, addressA, [⟨branchCSE, [(catOC, (60 : ℚ))]⟩]⟩]

/-- Witness catalog: one branch with OC cutoff 0 next to one with OC
cutoff 3. -/
def catalogMixed : List College :=
  [⟨collegeA, addressA, [⟨branchCSE, [(catOC, (0 : ℚ))]⟩, ⟨branchECE, [(catOC, (3 : ℚ))]⟩]⟩]

/-- Input text whose lower-casing contains hi as a substring but not as a
token. -/
def whichText : Str := ("which").data

/-- Input text containing a greeting token together with a valid marks and
category pair. -/
def hiMarksText : Str := ("hi 180 bc").data

/-- Example input of the spec with marks and category. -/
def scoredText : Str := ("I scored 185 marks in BC category").data

/-- Marks substring extracted from the example input. -/
def marks185 : Str := ("185").data

/-- Category substring extracted from the example input. -/
def categoryBC : Str := ("bc").data

/-- Ambiguous example input of the spec containing two numbers. -/
def twoNumbersText : Str := ("I am 18 and scored 190").data

/-- First numeric substring of the ambiguous example. -/
def marks18 : Str := ("18").data

/-- Characterization of the inner loop body: it emits exactly the suggestion
built from a present, nonzero cutoff not exceeding the marks. -/
theorem suggestionOf_eq_some_iff (college : College) (marks : ℚ) (category : Str)
    (branch : Branch) (s : CollegeSuggestion) :
    suggestionOf college marks category branch = some s ↔
      ∃ q : ℚ, branchCutoff branch category = some q ∧ q ≠ 0 ∧ q ≤ marks ∧
        s = ⟨college.college_name, branch.branch_name, q, college.address⟩ := by
  constructor
  · intro hf
    rcases hq : branchCutoff branch category with _ | q
    · simp only [suggestionOf, hq] at hf
      exact absurd hf (by simp)
    · simp only [suggestionOf, hq] at hf
      by_cases hcond : q ≠ 0 ∧ q ≤ marks
      · rw [if_pos hcond] at hf
        exact ⟨q, rfl, hcond.1, hcond.2, (Option.some.inj hf).symm⟩
      · rw [if_neg hcond] at hf
        exact absurd hf (by simp)
  · rintro ⟨q, hq, hz, hm, he⟩
    simp only [suggestionOf, hq]
    rw [if_pos ⟨hz, hm⟩, he]

/-- Membership in the collected list is exactly qualification of some
college and branch pair of the catalog. -/
theorem mem_collect_iff (catalog : List College) (marks : ℚ) (category : Str)
    (s : CollegeSuggestion) :
    s ∈ collectSuggestions catalog marks category ↔
      ∃ college ∈ catalog, ∃ branch ∈ college.branches, ∃ q : ℚ,
        branchCutoff branch category = some q ∧ q ≠ 0 ∧ q ≤ marks ∧
        s = ⟨college.college_name, branch.branch_name, q, college.address⟩ := by
  rw [collectSuggestions]
  constructor
  · intro hs
    rw [List.mem_flatMap] at hs
    obtain ⟨college, hcol, hmem⟩ := hs
    rw [List.mem_filterMap] at hmem
    obtain ⟨branch, hbr, hf⟩ := hmem
    obtain ⟨q, hq, hz, hm, he⟩ := (suggestionOf_eq_some_iff college marks category branch s).1 hf
    exact ⟨college, hcol, branch, hbr, q, hq, hz, hm, he⟩
  · rintro ⟨college, hcol, branch, hbr, q, hq, hz, hm, he⟩
    rw [List.mem_flatMap]
    refine ⟨college, hcol, ?_⟩
    rw [List.mem_filterMap]
    exact ⟨branch, hbr,
      (suggestionOf_eq_some_iff college marks category branch s).2 ⟨q, hq, hz, hm, he⟩⟩

/-- Sorting does not change membership, so the untruncated matcher output
has the same members as the collected list. -/
theorem mem_all_iff (catalog : List College) (marks : ℚ) (category : Str)
    (s : CollegeSuggestion) :
    s ∈ findCollegesByMarksAll catalog marks category ↔
      s ∈ collectSuggestions catalog marks category := by
  rw [findCollegesByMarksAll]
  exact List.mem_insertionSort suggLE

/-- C1 counterexample: the claim as stated is false on the code.  With a
catalog whose single branch carries an OC cutoff that is present and equal
to 0, and a score of 5 that satisfies score >= cutoff, the untruncated
matcher result does not contain the corresponding suggestion, because the
truthiness test in the source skips a zero cutoff. -/
theorem c1_counterexample :
    branchCutoff ⟨branchCSE, [(catOC, (0 : ℚ))]⟩ catOC = some 0 ∧
    (0 : ℚ) ≤ 5 ∧
    (⟨collegeA, branchCSE, 0, addressA⟩ : CollegeSuggestion) ∉
      findCollegesByMarksAll catalogZero 5 catOC := by
  refine ⟨by decide, by decide, by decide⟩

/-- C1 (amended): for every catalog, score and category, and every branch of
every college in the catalog, if the cutoff mapping of the branch contains a
NONZERO value for the requested category and the score is at least that
cutoff, then the matcher result before truncation contains the suggestion
for that college and branch pair carrying that cutoff, the college name, the
branch name and the address. -/
theorem c1_emits_qualifying_suggestion (catalog : List College) (marks : ℚ) (category : Str)
    (college : College) (branch : Branch) (cutoff : ℚ)
    (hcol : college ∈ catalog) (hbr : branch ∈ college.branches)
    (hq : branchCutoff branch category = some cutoff) (hz : cutoff ≠ 0)
    (hm : cutoff ≤ marks) :
    (⟨college.college_name, branch.branch_name, cutoff, college.address⟩ : CollegeSuggestion) ∈
      findCollegesByMarksAll catalog marks category := by
  rw [mem_all_iff, mem_collect_iff]
  exact ⟨college, hcol, branch, hbr, cutoff, hq, hz, hm, rfl⟩

/-- C1 witness: the amended claim applied to a one-college catalog with OC
cutoff 150 and score 180. -/
theorem c1_witness :
    branchCutoff ⟨branchCSE, [(catOC, (150 : ℚ))]⟩ catOC = some 150 ∧
    (150 : ℚ) ≠ 0 ∧ (150 : ℚ) ≤ 180 ∧
    (⟨collegeA, branchCSE, 150, addressA⟩ : CollegeSuggestion) ∈
      findCollegesByMarksAll catalogOne 180 catOC :=
  ⟨by decide, by decide, by decide,
    c1_emits_qualifying_suggestion catalogOne 180 catOC
      ⟨collegeA, addressA, [⟨branchCSE, [(catOC, (150 : ℚ))]⟩]⟩
      ⟨branchCSE, [(catOC, (150 : ℚ))]⟩ 150
      (by decide) (by decide) (by decide) (by decide) (by decide)⟩

/-- C3: for all catalogs, scores and categories, every suggestion returned
by the matcher has cutoff at most the score. -/
theorem c3_suggestions_within_score (catalog : List College) (marks : ℚ) (category : Str)
    (s : CollegeSuggestion) (hs : s ∈ findCollegesByMarks catalog marks category) :
    s.cutoff ≤ marks := by
  have h1 : s ∈ findCollegesByMarksAll catalog marks category := List.mem_of_mem_take hs
  rw [mem_all_iff, mem_collect_iff] at h1
  obtain ⟨college, _, branch, _, q, _, _, hm, he⟩ := h1
  rw [he]
  exact hm

/-- C3 witness: concrete membership with cutoff 150 and score 180. -/
theorem c3_witness :
    (⟨collegeA, branchCSE, 150, addressA⟩ : CollegeSuggestion) ∈
      findCollegesByMarks catalogOne 180 catOC ∧
    (⟨collegeA, branchCSE, 150, addressA⟩ : CollegeSuggestion).cutoff ≤ 180 :=
  ⟨by decide,
    c3_suggestions_within_score catalogOne 180 catOC
      ⟨collegeA, branchCSE, 150, addressA⟩ (by decide)⟩

/-- C4: for every catalog, score and category the matcher output is sorted
non-increasing by cutoff and has length at most 10. -/
theorem c4_sorted_and_truncated (catalog : List College) (marks : ℚ) (category : Str) :
    List.Sorted suggLE (findCollegesByMarks catalog marks category) ∧
    (findCollegesByMarks catalog marks category).length ≤ 10 := by
  constructor
  · exact (List.sorted_insertionSort suggLE _).sublist
      (List.take_sublist 10 (findCollegesByMarksAll catalog marks category))
  · rw [findCollegesByMarks]
    exact List.length_take_le 10 _

/-- C9: the matcher is deterministic: two invocations with equal scores and
equal categories on the same catalog return identical ordered results. -/
theorem c9_deterministic (catalog : List College) (marks1 : ℚ) (category1 : Str)
    (marks2 : ℚ) (category2 : Str) (hm : marks1 = marks2) (hc : category1 = category2) :
    findCollegesByMarks catalog marks1 category1 = findCollegesByMarks catalog marks2 category2 := by
  rw [hm, hc]

/-- C9 witness: two identical concrete invocations agree. -/
theorem c9_witness :
    (180 : ℚ) = 180 ∧ catOC = catOC ∧
    findCollegesByMarks catalogOne 180 catOC = findCollegesByMarks catalogOne 180 catOC :=
  ⟨rfl, rfl, c9_deterministic catalogOne 180 catOC 180 catOC rfl rfl⟩

/-- C10: for every catalog, every score at least 0 and every category, the
matcher never emits a suggestion whose cutoff is 0: the truthiness test of
the source skips a present zero cutoff even though score >= 0 holds. -/
theorem c10_zero_cutoff_skipped (catalog : List College) (marks : ℚ) (category : Str)
    (_hnn : 0 ≤ marks) (s : CollegeSuggestion)
    (hs : s ∈ findCollegesByMarks catalog marks category) :
    s.cutoff ≠ 0 := by
  have h1 : s ∈ findCollegesByMarksAll catalog marks category := List.mem_of_mem_take hs
  rw [mem_all_iff, mem_collect_iff] at h1
  obtain ⟨college, _, branch, _, q, _, hz, _, he⟩ := h1
  rw [he]
  exact hz

/-- C10 witness: with a zero-cutoff OC branch next to a cutoff-3 branch and
score 5, only the nonzero suggestion is emitted and its cutoff is nonzero;
the zero-cutoff suggestion is absent. -/
theorem c10_witness :
    (0 : ℚ) ≤ 5 ∧
    (⟨collegeA, branchECE, 3, addressA⟩ : CollegeSuggestion) ∈
      findCollegesByMarks catalogMixed 5 catOC ∧
    (⟨collegeA, branchECE, 3, addressA⟩ : CollegeSuggestion).cutoff ≠ 0 ∧
    (⟨collegeA, branchCSE, 0, addressA⟩ : CollegeSuggestion) ∉
      findCollegesByMarks catalogMixed 5 catOC :=
  ⟨by decide, by decide,
    c10_zero_cutoff_skipped catalogMixed 5 catOC (by decide)
      ⟨collegeA, branchECE, 3, addressA⟩ (by decide),
    by decide⟩

/-- Rule 4 reply differs from the greeting reply. -/
theorem collegeReply_ne_greeting : collegeReply ≠ greetingReply := by decide

/-- Rule 5 reply differs from the greeting reply. -/
theorem defaultReply_ne_greeting : defaultReply ≠ greetingReply := by decide

/-- Rule 2 reply differs from the greeting reply. -/
theorem howAreYouReply_ne_greeting : howAreYouReply ≠ greetingReply := by decide

/-- Rule 3 replies differ from the greeting reply for every marks value,
category and catalog: the successful reply attaches suggestions while the
greeting does not, and the fallback content starts with a different
character than the greeting content. -/
theorem marksReply_ne_greeting (catalog : List College) (marks : ℚ) (category : Str) :
    marksReply catalog marks category ≠ greetingReply := by
  rw [marksReply]
  split_ifs with h
  · intro he
    have hs : (some (findCollegesByMarks catalog marks category) :
        Option (List CollegeSuggestion)) = none := congrArg Reply.suggestions he
    exact Option.noConfusion hs
  · intro he
    have hh : (some 'I' : Option Char) = some 'H' :=
      congrArg (fun r : Reply => r.content.head?) he
    exact absurd hh (by decide)

/-- A token occurrence at one position is in particular a prefix there. -/
theorem isPrefixOf_of_tokenHere (tok : Str) (prev : Option Char) (s : Str)
    (h : tokenHere tok prev s = true) : List.isPrefixOf tok s = true := by
  rw [tokenHere] at h
  exact (Bool.and_eq_true_iff.mp (Bool.and_eq_true_iff.mp h).1).2

/-- A token occurrence anywhere is in particular a substring occurrence. -/
theorem includes_of_tokenScan (tok : Str) : ∀ (prev : Option Char) (s : Str),
    tokenScan tok prev s = true → includes tok s = true := by
  intro prev s
  induction s generalizing prev with
  | nil =>
      intro h
      rw [includes]
      exact isPrefixOf_of_tokenHere tok prev [] h
  | cons c cs ih =>
      intro h
      rw [tokenScan] at h
      rw [includes]
      rcases Bool.or_eq_true_iff.mp h with h1 | h2
      · exact Bool.or_eq_true_iff.mpr (Or.inl (isPrefixOf_of_tokenHere tok prev (c :: cs) h1))
      · exact Bool.or_eq_true_iff.mpr (Or.inr (ih (some c) h2))

/-- C2 counterexample: the claim as stated is false on the code.  The input
text which contains hi as a substring but not as a token, yet the classifier
takes rule 1 and returns the fixed greeting reply. -/
theorem c2_counterexample :
    containsTokenSpec (toLowerStr whichText) tokHi = false ∧
    containsTokenSpec (toLowerStr whichText) tokHello = false ∧
    containsTokenSpec (toLowerStr whichText) tokHey = false ∧
    generateAIResponse [] whichText = greetingReply :=
  ⟨by decide, by decide, by decide, by decide⟩

/-- C2 (amended): for every catalog and input text, the classifier returns
the fixed greeting reply with no suggestions exactly when the lower-cased
text contains hi, hello or hey as a SUBSTRING (not as a token). -/
theorem c2_rule1_iff_substring (catalog : List College) (text : Str) :
    generateAIResponse catalog text = greetingReply ↔
      (includes tokHi (toLowerStr text) || includes tokHello (toLowerStr text) ||
        includes tokHey (toLowerStr text)) = true := by
  constructor
  · intro h
    by_contra hb
    rw [generateAIResponse, if_neg hb] at h
    by_cases h2 : (includes tokHowAreYou (toLowerStr text) ||
        includes tokHowDoYouDo (toLowerStr text)) = true
    · rw [if_pos h2] at h
      exact howAreYouReply_ne_greeting h
    · rw [if_neg h2] at h
      rcases hm : firstMarksMatch (toLowerStr text) with _ | m
      · simp only [hm] at h
        by_cases h4 : (includes tokCollege (toLowerStr text) ||
            includes tokEngineering (toLowerStr text) ||
            includes tokCutoff (toLowerStr text)) = true
        · rw [if_pos h4] at h
          exact collegeReply_ne_greeting h
        · rw [if_neg h4] at h
          exact defaultReply_ne_greeting h
      · rcases hc : firstCategoryMatch (toLowerStr text) with _ | c
        · simp only [hm, hc] at h
          by_cases h4 : (includes tokCollege (toLowerStr text) ||
              includes tokEngineering (toLowerStr text) ||
              includes tokCutoff (toLowerStr text)) = true
          · rw [if_pos h4] at h
            exact collegeReply_ne_greeting h
          · rw [if_neg h4] at h
            exact defaultReply_ne_greeting h
        · simp only [hm, hc] at h
          exact marksReply_ne_greeting catalog (parseScore m) (toUpperStr c) h
  · intro hcond
    rw [generateAIResponse, if_pos hcond]

/-- C5: for every catalog and input text containing a greeting token (in the
token sense of the spec) together with a successful marks extraction and a
successful category extraction, the classifier resolves to the fixed
greeting reply with no suggestions: rule 1 precedes rule 3 and the matcher
result plays no part in the reply. -/
theorem c5_greeting_precedes_marks (catalog : List College) (text : Str)
    (htok : containsTokenSpec (toLowerStr text) tokHi = true ∨
      containsTokenSpec (toLowerStr text) tokHello = true ∨
      containsTokenSpec (toLowerStr text) tokHey = true)
    (_hm : (firstMarksMatch (toLowerStr text)).isSome = true)
    (_hc : (firstCategoryMatch (toLowerStr text)).isSome = true) :
    generateAIResponse catalog text = greetingReply := by
  have hsub : (includes tokHi (toLowerStr text) || includes tokHello (toLowerStr text) ||
      includes tokHey (toLowerStr text)) = true := by
    rcases htok with h | h | h <;>
      simp [includes_of_tokenScan _ none (toLowerStr text) h]
  rw [generateAIResponse, if_pos hsub]

/-- C5 witness: an input holding the token hi together with extractable
marks 180 and category bc resolves to the greeting reply. -/
theorem c5_witness :
    containsTokenSpec (toLowerStr hiMarksText) tokHi = true ∧
    (firstMarksMatch (toLowerStr hiMarksText)).isSome = true ∧
    (firstCategoryMatch (toLowerStr hiMarksText)).isSome = true ∧
    generateAIResponse [] hiMarksText = greetingReply :=
  ⟨by decide, by decide, by decide,
    c5_greeting_precedes_marks [] hiMarksText (Or.inl (by decide)) (by decide) (by decide)⟩

/-- C6: the classifier is total: for every catalog and every input text,
including the empty string, it returns one of the five reply shapes of the
decision chain; in the embedding no partial operation is involved, matching
the absence of any exception path in the source logic. -/
theorem c6_total_classification (catalog : List College) (text : Str) :
    generateAIResponse catalog text = greetingReply ∨
    generateAIResponse catalog text = howAreYouReply ∨
    (∃ m c : Str, firstMarksMatch (toLowerStr text) = some m ∧
      firstCategoryMatch (toLowerStr text) = some c ∧
      generateAIResponse catalog text = marksReply catalog (parseScore m) (toUpperStr c)) ∨
    generateAIResponse catalog text = collegeReply ∨
    generateAIResponse catalog text = defaultReply := by
  by_cases h1 : (includes tokHi (toLowerStr text) || includes tokHello (toLowerStr text) ||
      includes tokHey (toLowerStr text)) = true
  · exact Or.inl (by rw [generateAIResponse, if_pos h1])
  · by_cases h2 : (includes tokHowAreYou (toLowerStr text) ||
        includes tokHowDoYouDo (toLowerStr text)) = true
    · exact Or.inr (Or.inl (by rw [generateAIResponse, if_neg h1, if_pos h2]))
    · rcases hm : firstMarksMatch (toLowerStr text) with _ | m
      · refine Or.inr (Or.inr (Or.inr ?_))
        rw [generateAIResponse, if_neg h1, if_neg h2]
        simp only [hm]
        by_cases h4 : (includes tokCollege (toLowerStr text) ||
            includes tokEngineering (toLowerStr text) ||
            includes tokCutoff (toLowerStr text)) = true
        · exact Or.inl (by rw [if_pos h4])
        · exact Or.inr (by rw [if_neg h4])
      · rcases hc : firstCategoryMatch (toLowerStr text) with _ | c
        · refine Or.inr (Or.inr (Or.inr ?_))
          rw [generateAIResponse, if_neg h1, if_neg h2]
          simp only [hm, hc]
          by_cases h4 : (includes tokCollege (toLowerStr text) ||
              includes tokEngineering (toLowerStr text) ||
              includes tokCutoff (toLowerStr text)) = true
          · exact Or.inl (by rw [if_pos h4])
          · exact Or.inr (by rw [if_neg h4])
        · refine Or.inr (Or.inr (Or.inl ⟨m, c, rfl, rfl, ?_⟩))
          rw [generateAIResponse, if_neg h1, if_neg h2]
          simp only [hm, hc]

/-- C7: for every catalog, score and category for which no college and
branch pair qualifies, the matcher returns the empty list, and the rule 3
body then builds the explanatory fallback reply with no suggestions
attached. -/
theorem c7_empty_and_fallback (catalog : List College) (marks : ℚ) (category : Str)
    (h : ∀ college ∈ catalog, ∀ branch ∈ college.branches, ∀ q : ℚ,
      branchCutoff branch category = some q → ¬(q ≠ 0 ∧ q ≤ marks)) :
    findCollegesByMarks catalog marks category = [] ∧
    marksReply catalog marks category = ⟨noMatchContent marks category, none⟩ := by
  have hall : findCollegesByMarksAll catalog marks category = [] := by
    rw [List.eq_nil_iff_forall_not_mem]
    intro s hs
    rw [mem_all_iff, mem_collect_iff] at hs
    obtain ⟨college, hcol, branch, hbr, q, hq, hz, hm, _⟩ := hs
    exact h college hcol branch hbr q hq ⟨hz, hm⟩
  have hnil : findCollegesByMarks catalog marks category = [] := by
    rw [findCollegesByMarks, hall]
    rfl
  refine ⟨hnil, ?_⟩
  rw [marksReply, hnil]
  rw [if_neg (by simp)]

/-- C7 witness: with a single OC cutoff of 60 and a score of 50 nothing
qualifies, the matcher returns the empty list and the rule 3 body returns
the fallback reply. -/
theorem c7_witness :
    (∀ college ∈ catalogSixty, ∀ branch ∈ college.branches, ∀ q : ℚ,
      branchCutoff branch catOC = some q → ¬(q ≠ 0 ∧ q ≤ (50 : ℚ))) ∧
    findCollegesByMarks catalogSixty 50 catOC = [] ∧
    marksReply catalogSixty 50 catOC = ⟨noMatchContent 50 catOC, none⟩ := by
  have h : ∀ college ∈ catalogSixty, ∀ branch ∈ college.branches, ∀ q : ℚ,
      branchCutoff branch catOC = some q → ¬(q ≠ 0 ∧ q ≤ (50 : ℚ)) := by
    intro college hcol branch hbr q hq hqq
    fin_cases hcol
    fin_cases hbr
    have h60 : (some (60 : ℚ) : Option ℚ) = some q := hq
    rw [← Option.some.inj h60] at hqq
    exact absurd hqq.2 (by decide)
  exact ⟨h, (c7_empty_and_fallback catalogSixty 50 catOC h).1,
    (c7_empty_and_fallback catalogSixty 50 catOC h).2⟩

/-- C8: for every catalog and input text on which rules 1 and 2 do not fire
and both regexes match, the classifier extracts the first numeric match as
the score and the first category match, upper-cased, as the category, and
hands exactly those values to the rule 3 body that invokes the matcher; and
on the ambiguous example text with two numbers the first numeric match is 18
and parses to the score 18. -/
theorem c8_first_match_extraction :
    (∀ (catalog : List College) (text m c : Str),
      (includes tokHi (toLowerStr text) || includes tokHello (toLowerStr text) ||
        includes tokHey (toLowerStr text)) = false →
      (includes tokHowAreYou (toLowerStr text) ||
        includes tokHowDoYouDo (toLowerStr text)) = false →
      firstMarksMatch (toLowerStr text) = some m →
      firstCategoryMatch (toLowerStr text) = some c →
      generateAIResponse catalog text = marksReply catalog (parseScore m) (toUpperStr c)) ∧
    firstMarksMatch (toLowerStr twoNumbersText) = some marks18 ∧
    parseScore marks18 = 18 := by
  refine ⟨?_, by decide, by decide⟩
  intro catalog text m c h1 h2 hm hc
  rw [generateAIResponse, if_neg (by simp [h1]), if_neg (by simp [h2])]
  simp only [hm, hc]

/-- C8 witness: the spec example input extracts marks 185 and category bc
and reaches the rule 3 body with exactly those values. -/
theorem c8_witness :
    (includes tokHi (toLowerStr scoredText) || includes tokHello (toLowerStr scoredText) ||
      includes tokHey (toLowerStr scoredText)) = false ∧
    (includes tokHowAreYou (toLowerStr scoredText) ||
      includes tokHowDoYouDo (toLowerStr scoredText)) = false ∧
    firstMarksMatch (toLowerStr scoredText) = some marks185 ∧
    firstCategoryMatch (toLowerStr scoredText) = some categoryBC ∧
    generateAIResponse [] scoredText = marksReply [] (parseScore marks185) (toUpperStr categoryBC) :=
  ⟨by decide, by decide, by decide, by decide,
    c8_first_match_extraction.1 [] scoredText marks185 categoryBC
      (by decide) (by decide) (by decide) (by decide)⟩
